import Mathlib

/-!
Verification of the rustdesk-mobile-ui connection-resilience core.

The repository fragment ships only its browser test suite
(`tests/smoke.spec.js`) and the test-runner configuration; the
application script exercised by those tests (the WebSocket connection
manager, the stream controller, the quick ribbon and the performance
telemetry) is not part of the fragment.  The definitions below are
therefore shallow models of that missing code, reconstructed from the
specification and from the concrete behaviour the test suite pins down
(constants such as the 2000 ms base delay, the 1.5 growth factor, the
60000 ms cap and the 21-attempt manual-retry threshold appear in the
tests' comments and assertions).
-/

/- ────────────────────────── guessWindowType ────────────────────────── -/

/-- Checks that `p` is a leading segment of `l` (character lists,
compared with `==`). -/
def prefixMatches : List Char → List Char → Bool
  | [], _ => true
  | _ :: _, [] => false
  | p :: ps, c :: cs => p == c && prefixMatches ps cs

/-- Checks that `p` occurs contiguously somewhere inside `l`. -/
def containsChars (p : List Char) : List Char → Bool
  | [] => p.isEmpty
  | c :: cs => prefixMatches p (c :: cs) || containsChars p cs

/-- ASCII-style lowercase of a character list. -/
def lowerChars : List Char → List Char
  | [] => []
  | c :: cs => c.toLower :: lowerChars cs

/-- Lowercase of a string (models the JavaScript `s.toLowerCase()`);
defined by structural recursion so that concrete evaluations reduce. -/
def lowerStr (s : String) : String :=
  String.mk (lowerChars s.data)

/-- Substring test on strings: does `s` contain `sub`?  Models the
JavaScript `s.includes(sub)`. -/
def containsSub (s sub : String) : Bool :=
  containsChars sub.data s.data

/-- Ribbon mode / window classification. -/
inductive WindowType
  | terminal
  | browser
  | generic
deriving DecidableEq, Repr

/-- Modelled from the spec: `streamController.guessWindowType(hint)` of the
application script, absent from the repository fragment.  Pure
classification, evaluated case-insensitively against substrings of the
hint: "cmd"/"powershell"/"terminal" give `terminal`,
"chrome"/"firefox"/"edge" give `browser`, everything else (including a
missing or empty hint, modelled as `none` / `some ""`) gives `generic`. -/
def guessWindowType (hint : Option String) : WindowType :=
  let l := lowerStr (hint.getD "")
  if containsSub l "cmd" || containsSub l "powershell" || containsSub l "terminal" then
    .terminal
  else if containsSub l "chrome" || containsSub l "firefox" || containsSub l "edge" then
    .browser
  else
    .generic

/- ────────────────────────── reconnect delay ────────────────────────── -/

/-- Base reconnect delay in milliseconds (attempt 0 is about 2000 ms). -/
def baseDelay : ℚ := 2000

/-- Exponential growth factor of the backoff series
(2000·1.5³ = 6750 and 2000·1.5⁶ = 22781.25, matching the test's
expected values). -/
def growthFactor : ℚ := 3 / 2

/-- Hard ceiling for the backoff delay. -/
def capDelay : ℚ := 60000

/-- Maximal relative jitter (20 %). -/
def jitterFraction : ℚ := 1 / 5

/-- Modelled from the spec: the deterministic part of
`getReconnectDelay(attempt)` of the application script, absent from the
repository fragment: `min(baseDelay · growthFactor^attempt, capDelay)`. -/
def baseReconnectDelay (attempt : ℕ) : ℚ :=
  min (baseDelay * growthFactor ^ attempt) capDelay

/-- Modelled from the spec: `getReconnectDelay(attempt)` of the application
script, absent from the repository fragment.  The random jitter of
±20 % is made explicit as the parameter `jitter ∈ [-1/5, 1/5]`, the
relative deviation drawn by the implementation. -/
def getReconnectDelay (attempt : ℕ) (jitter : ℚ) : ℚ :=
  baseReconnectDelay attempt * (1 + jitter)

/- ────────────────────────── ConnectionManager ────────────────────────── -/

/-- The four connection states of the manager. -/
inductive ConnState
  | connected
  | slow
  | reconnecting
  | disconnected
deriving DecidableEq, Repr

/-- Events driving the connection state machine: heartbeat timeout,
heartbeat recovery, transport close/error, a retry that succeeds, a
retry that fails, and the user-invoked manual retry. -/
inductive ConnEvent
  | heartbeatTimeout
  | heartbeatRecover
  | transportClose
  | retrySuccess
  | retryFail
  | manualRetry
deriving DecidableEq, Repr

/-- Observable state of the connection manager: the connection state and
the reconnect attempt counter (`wsReconnectAttempt` in the tests). -/
structure ConnectionManager where
  connState : ConnState
  wsReconnectAttempt : ℕ
deriving DecidableEq, Repr

/-- Manual-retry threshold (`WS_MAX_RETRY_BANNER` in the tests). -/
def WS_MAX_RETRY_BANNER : ℕ := 21

/-- The manager at construction: optimistically `connected`, counter 0. -/
def initManager : ConnectionManager :=
  { connState := .connected, wsReconnectAttempt := 0 }

/-- Modelled from the spec: the connection state machine of the
application script, absent from the repository fragment.  Transitions:
`connected → slow` (heartbeat timeout), `slow → connected` (heartbeat
recovers), `connected|slow → reconnecting` (transport closes/errors,
counter increments), `reconnecting → connected` (retry succeeds, counter
resets), `reconnecting → disconnected` (the failed-attempt counter
reaches the threshold), `disconnected → reconnecting` (manual retry).
Any other event/state pair leaves the manager unchanged. -/
def connStep (m : ConnectionManager) (e : ConnEvent) : ConnectionManager :=
  match m.connState, e with
  | .connected, .heartbeatTimeout =>
      { connState := .slow, wsReconnectAttempt := m.wsReconnectAttempt }
  | .slow, .heartbeatRecover =>
      { connState := .connected, wsReconnectAttempt := 0 }
  | .connected, .transportClose =>
      { connState := .reconnecting, wsReconnectAttempt := m.wsReconnectAttempt + 1 }
  | .slow, .transportClose =>
      { connState := .reconnecting, wsReconnectAttempt := m.wsReconnectAttempt + 1 }
  | .reconnecting, .retrySuccess =>
      { connState := .connected, wsReconnectAttempt := 0 }
  | .reconnecting, .retryFail =>
      if WS_MAX_RETRY_BANNER ≤ m.wsReconnectAttempt + 1 then
        { connState := .disconnected, wsReconnectAttempt := m.wsReconnectAttempt + 1 }
      else
        { connState := .reconnecting, wsReconnectAttempt := m.wsReconnectAttempt + 1 }
  | .disconnected, .manualRetry =>
      { connState := .reconnecting, wsReconnectAttempt := m.wsReconnectAttempt }
  | _, _ => m

/-- Running the manager from construction over a list of events. -/
def runConn (es : List ConnEvent) : ConnectionManager :=
  es.foldl connStep initManager

/-- Modelled from the spec: the manual-retry-required condition (the
"Tap to Retry" banner state of the tests): auto-scheduling has stopped
and the state rests at `disconnected`. -/
def manualRetryRequired (m : ConnectionManager) : Bool :=
  m.connState == .disconnected

/-- An event trace with exactly `n` failed connection attempts starting
from a healthy connection: the transport drops once, then `n - 1`
scheduled retries fail in a row. -/
def failEvents : ℕ → List ConnEvent
  | 0 => []
  | k + 1 => .transportClose :: List.replicate k .retryFail

/-- The transition pairs the specification lists for the connection
state machine; used to state that no other transition ever occurs. -/
def allowedTransition (s t : ConnState) : Prop :=
  (s, t) ∈ [(ConnState.connected, ConnState.slow),
    (ConnState.slow, ConnState.connected),
    (ConnState.connected, ConnState.reconnecting),
    (ConnState.slow, ConnState.reconnecting),
    (ConnState.reconnecting, ConnState.connected),
    (ConnState.reconnecting, ConnState.disconnected),
    (ConnState.disconnected, ConnState.reconnecting)]

/-- The counter/state consistency invariant of the data model: the
attempt counter is nonzero only while the state is `reconnecting` or
`disconnected`. -/
def ConnInv (m : ConnectionManager) : Prop :=
  m.wsReconnectAttempt ≠ 0 →
    m.connState = .reconnecting ∨ m.connState = .disconnected

/- ────────────────────────── StreamSession ────────────────────────── -/

/-- Outbound wire messages the stream controller sends over the
transport; only the stream-start request matters here. -/
inductive WireMsg
  | streamStart (winId : Option String)
deriving DecidableEq, Repr

/-- Observable state of the stream controller: whether a session is
active, the remembered window identifier and the remembered title. -/
structure StreamController where
  streamActive : Bool
  streamWinId : Option String
  streamTitle : Option String
deriving DecidableEq, Repr

/-- The controller before any stream has been opened. -/
def initStream : StreamController :=
  { streamActive := false, streamWinId := none, streamTitle := none }

/-- Modelled from the spec: `streamController.openStream(winId, title,
hint)` of the application script, absent from the repository fragment.
Marks the session active, remembers identifier and title (replacing any
prior session) and issues a stream-start request. -/
def openStream (winId title : String) (_hint : Option String)
    (_s : StreamController) : StreamController × List WireMsg :=
  ({ streamActive := true, streamWinId := some winId, streamTitle := some title },
    [.streamStart (some winId)])

/-- Modelled from the spec: `streamController.closeStream()` of the
application script, absent from the repository fragment.  Marks the
state inactive and clears the active window identifier. -/
def closeStream (s : StreamController) : StreamController :=
  { streamActive := false, streamWinId := none, streamTitle := s.streamTitle }

/-- Modelled from the spec: `streamController.resumeStream()` of the
application script, absent from the repository fragment.  Re-issues the
stream-start request for the remembered window without altering the
remembered identifier or title; a no-op when no session is active. -/
def resumeStream (s : StreamController) : StreamController × List WireMsg :=
  if s.streamActive then (s, [.streamStart s.streamWinId]) else (s, [])

/-- Modelled from the spec: the `ws.onopen` reconnection path of the
application script, absent from the repository fragment, whose logic the
test re-enacts: remember whether this open ends a reconnection
(`wsReconnectAttempt > 0`), reset the counter, enter `connected`, and if
it was a reconnection let the stream controller resume. -/
def handleSocketOpen (m : ConnectionManager) (s : StreamController) :
    ConnectionManager × StreamController × List WireMsg :=
  let wasReconnect := 0 < m.wsReconnectAttempt
  let m2 : ConnectionManager := { connState := .connected, wsReconnectAttempt := 0 }
  if wasReconnect then
    let r := resumeStream s
    (m2, r.1, r.2)
  else
    (m2, s, [])

/-- The stream-controller operations, for quantifying over every
sequence of calls. -/
inductive StreamOp
  | opOpen (winId title : String) (hint : Option String)
  | opClose
  | opResume
deriving DecidableEq, Repr

/-- One stream-controller call (the emitted messages are dropped). -/
def streamStep (s : StreamController) : StreamOp → StreamController
  | .opOpen winId title hint => (openStream winId title hint s).1
  | .opClose => closeStream s
  | .opResume => (resumeStream s).1

/-- Running the stream controller from its initial state over a list of
calls. -/
def runStream (ops : List StreamOp) : StreamController :=
  ops.foldl streamStep initStream

/- ────────────────────────── Quick ribbon ────────────────────────── -/

/-- Observable ribbon state: the `data-mode` attribute of
`#quick-ribbon`. -/
structure Ribbon where
  dataMode : WindowType
deriving DecidableEq, Repr

/-- Modelled from the spec: the ribbon as built at page load by the
application script, absent from the repository fragment; the test
asserts its default mode is `terminal`. -/
def initRibbon : Ribbon :=
  { dataMode := .terminal }

/-- Modelled from the spec: `updateRibbonMode(mode)` of the application
script, absent from the repository fragment. -/
def updateRibbonMode (_r : Ribbon) (mode : WindowType) : Ribbon :=
  { dataMode := mode }

/-- The page state right after load: ribbon, stream controller and
connection manager in their initial states. -/
def pageInitState : Ribbon × StreamController × ConnectionManager :=
  (initRibbon, initStream, initManager)

/- ────────────────────────── PerformanceTelemetry ────────────────────────── -/

/-- Quality labels of the telemetry snapshot. -/
inductive Quality
  | good
  | fair
  | poor
deriving DecidableEq, Repr

/-- Rolling accumulators of the telemetry component. -/
structure PerfTelemetry where
  totalFrames : ℕ
  totalBytes : ℕ
  dropCount : ℕ
  latencySamples : List ℚ
deriving DecidableEq, Repr

/-- The all-zero accumulator state. -/
def initTelemetry : PerfTelemetry :=
  { totalFrames := 0, totalBytes := 0, dropCount := 0, latencySamples := [] }

/-- Modelled from the spec: `perfTelemetry.reset()` of the application
script, absent from the repository fragment: zeroes all counters and
clears the latency samples. -/
def PerfTelemetry.reset (_t : PerfTelemetry) : PerfTelemetry :=
  initTelemetry

/-- Modelled from the spec: `perfTelemetry.recordFrame(byteSize)` of the
application script, absent from the repository fragment. -/
def recordFrame (t : PerfTelemetry) (byteSize : ℕ) : PerfTelemetry :=
  { t with totalFrames := t.totalFrames + 1, totalBytes := t.totalBytes + byteSize }

/-- Modelled from the spec: `perfTelemetry.recordLatency(ms)` of the
application script, absent from the repository fragment. -/
def recordLatency (t : PerfTelemetry) (ms : ℚ) : PerfTelemetry :=
  { t with latencySamples := t.latencySamples ++ [ms] }

/-- Modelled from the spec: `perfTelemetry.recordDrop()` of the
application script, absent from the repository fragment. -/
def recordDrop (t : PerfTelemetry) : PerfTelemetry :=
  { t with dropCount := t.dropCount + 1 }

/-- Mean of the recorded latency samples, zero-safe when none exist. -/
def avgLatency (t : PerfTelemetry) : ℚ :=
  if t.latencySamples.length = 0 then 0
  else t.latencySamples.sum / t.latencySamples.length

/-- Modelled from the spec: the quality classification of the
application script, absent from the repository fragment.  The exact
thresholds are an implementation choice; these concrete ones are
monotone in latency and drops as the specification requires. -/
def qualityOf (lat : ℚ) (drops : ℕ) : Quality :=
  if lat ≤ 100 ∧ drops ≤ 2 then .good
  else if lat ≤ 300 ∧ drops ≤ 10 then .fair
  else .poor

/-- The immutable snapshot returned by `getSnapshot()`. -/
structure Snapshot where
  totalFrames : ℕ
  drops : ℕ
  avgFrameSize : ℚ
  latency : ℚ
  quality : Quality
deriving DecidableEq, Repr

/-- Modelled from the spec: `perfTelemetry.getSnapshot()` of the
application script, absent from the repository fragment:
`avgFrameSize = totalBytes / totalFrames` (zero-safe), `latency` the
mean of the samples, `quality` derived from latency and drops. -/
def getSnapshot (t : PerfTelemetry) : Snapshot :=
  { totalFrames := t.totalFrames
    drops := t.dropCount
    avgFrameSize :=
      if t.totalFrames = 0 then 0 else (t.totalBytes : ℚ) / t.totalFrames
    latency := avgLatency t
    quality := qualityOf (avgLatency t) t.dropCount }

/-- The recording operations, for quantifying over every sequence of
calls made after a `reset()`. -/
inductive PerfOp
  | frame (size : ℕ)
  | latencySample (ms : ℚ)
  | drop
deriving DecidableEq, Repr

/-- One recording call. -/
def perfStep (t : PerfTelemetry) : PerfOp → PerfTelemetry
  | .frame size => recordFrame t size
  | .latencySample ms => recordLatency t ms
  | .drop => recordDrop t

/-- Running the telemetry over a list of recording calls issued right
after a `reset()`. -/
def runPerf (ops : List PerfOp) : PerfTelemetry :=
  ops.foldl perfStep (PerfTelemetry.reset initTelemetry)

/-- Number of `recordFrame` calls in a trace. -/
def countFrames : List PerfOp → ℕ
  | [] => 0
  | .frame _ :: rest => countFrames rest + 1
  | _ :: rest => countFrames rest

/-- Number of `recordDrop` calls in a trace. -/
def countDrops : List PerfOp → ℕ
  | [] => 0
  | .drop :: rest => countDrops rest + 1
  | _ :: rest => countDrops rest

/-- Total bytes recorded by the `recordFrame` calls of a trace. -/
def sumBytes : List PerfOp → ℕ
  | [] => 0
  | .frame size :: rest => size + sumBytes rest
  | _ :: rest => sumBytes rest

/-- The latency samples of a trace, in order. -/
def latencyList : List PerfOp → List ℚ
  | [] => []
  | .latencySample ms :: rest => ms :: latencyList rest
  | _ :: rest => latencyList rest

/-- Rank of a quality label: `good` is best. -/
def qualityRank : Quality → ℕ
  | .good => 2
  | .fair => 1
  | .poor => 0

/- ══════════════════════════ Theorems ══════════════════════════ -/

/-- C6: `guessWindowType` is a total, deterministic function (a Lean
function, so it cannot raise, including on a missing `none` or empty
hint): a hint whose lowercase form contains "cmd", "powershell" or
"terminal" yields `terminal`; otherwise one containing "chrome",
"firefox" or "edge" yields `browser`; every other input, including the
empty string and a missing hint, yields `generic`; in particular the ten
concrete examples of the test suite map as asserted there. -/
theorem guessWindowType_correct :
    guessWindowType none = .generic
    ∧ guessWindowType (some "") = .generic
    ∧ guessWindowType (some "cmd.exe") = .terminal
    ∧ guessWindowType (some "powershell") = .terminal
    ∧ guessWindowType (some "WindowsTerminal") = .terminal
    ∧ guessWindowType (some "chrome.exe") = .browser
    ∧ guessWindowType (some "firefox") = .browser
    ∧ guessWindowType (some "msedge") = .browser
    ∧ guessWindowType (some "notepad.exe") = .generic
    ∧ guessWindowType (some "explorer") = .generic
    ∧ (∀ h : String,
        (containsSub (lowerStr h) "cmd" || containsSub (lowerStr h) "powershell" ||
          containsSub (lowerStr h) "terminal") = true →
        guessWindowType (some h) = .terminal)
    ∧ (∀ h : String,
        (containsSub (lowerStr h) "cmd" || containsSub (lowerStr h) "powershell" ||
          containsSub (lowerStr h) "terminal") = false →
        (containsSub (lowerStr h) "chrome" || containsSub (lowerStr h) "firefox" ||
          containsSub (lowerStr h) "edge") = true →
        guessWindowType (some h) = .browser)
    ∧ (∀ h : String,
        (containsSub (lowerStr h) "cmd" || containsSub (lowerStr h) "powershell" ||
          containsSub (lowerStr h) "terminal") = false →
        (containsSub (lowerStr h) "chrome" || containsSub (lowerStr h) "firefox" ||
          containsSub (lowerStr h) "edge") = false →
        guessWindowType (some h) = .generic) := by
  refine ⟨by decide, by decide, by decide, by decide, by decide, by decide, by decide,
    by decide, by decide, by decide, ?_, ?_, ?_⟩
  · intro h hT
    simp [guessWindowType, hT]
  · intro h hT hB
    simp [guessWindowType, hT, hB]
  · intro h hT hB
    simp [guessWindowType, hT, hB]

/-- C6 witness: the terminal rule applied at the concrete hint
"cmd.exe". -/
theorem guessWindowType_correct_witness :
    guessWindowType (some "cmd.exe") = .terminal :=
  guessWindowType_correct.2.2.2.2.2.2.2.2.2.2.1 "cmd.exe" (by decide)

/-- C10: at initial page load — before any stream has been opened and
before any mode switch — the quick ribbon's `data-mode` is `terminal`,
so the terminal button group is the one shown by default. -/
theorem defaultRibbonMode_terminal :
    pageInitState.1.dataMode = .terminal
    ∧ pageInitState.1 = initRibbon
    ∧ pageInitState.2.1.streamActive = false := by
  exact ⟨rfl, rfl, rfl⟩

/-- C2: after exactly 21 failed reconnect attempts the manager exposes
the manual-retry-required condition: the state is `disconnected`, every
event except the manual retry leaves the manager unchanged (auto
scheduling has stopped), and the manual retry is the transition that
re-enters `reconnecting` (the path to a new connect call); with fewer
than 21 failed attempts the condition is not exposed. -/
theorem manualRetry_after_21_attempts :
    runConn (failEvents 21) = { connState := .disconnected, wsReconnectAttempt := 21 }
    ∧ manualRetryRequired (runConn (failEvents 21)) = true
    ∧ (∀ n : ℕ, n < 21 → manualRetryRequired (runConn (failEvents n)) = false)
    ∧ (∀ n : ℕ, n < 21 → ¬(runConn (failEvents n)).connState = .disconnected)
    ∧ (∀ e : ConnEvent, ¬e = .manualRetry →
        connStep { connState := .disconnected, wsReconnectAttempt := 21 } e =
          { connState := .disconnected, wsReconnectAttempt := 21 })
    ∧ (connStep { connState := .disconnected, wsReconnectAttempt := 21 }
        .manualRetry).connState = .reconnecting := by
  refine ⟨by decide, by decide, by decide, by decide, ?_, by decide⟩
  intro e he
  cases e <;> simp_all [connStep]

/-- C2 witness: 20 failed attempts do not expose the manual-retry
condition. -/
theorem manualRetry_after_21_attempts_witness :
    manualRetryRequired (runConn (failEvents 20)) = false :=
  manualRetry_after_21_attempts.2.2.1 20 (by decide)

/-- C3: the connection state is one of the four enumerated states, the
manager starts `connected` at construction, and whenever a step changes
the state the (source, target) pair is one of exactly the seven
transitions of the specification; each of those seven transitions is
realized by its named event. -/
theorem connState_machine :
    initManager.connState = .connected
    ∧ (∀ s : ConnState, s = .connected ∨ s = .slow ∨ s = .reconnecting ∨ s = .disconnected)
    ∧ (∀ (m : ConnectionManager) (e : ConnEvent),
        ¬(connStep m e).connState = m.connState →
        allowedTransition m.connState (connStep m e).connState)
    ∧ (∀ n : ℕ, connStep { connState := .connected, wsReconnectAttempt := n }
        .heartbeatTimeout = { connState := .slow, wsReconnectAttempt := n })
    ∧ (∀ n : ℕ, connStep { connState := .slow, wsReconnectAttempt := n }
        .heartbeatRecover = { connState := .connected, wsReconnectAttempt := 0 })
    ∧ (∀ n : ℕ, connStep { connState := .connected, wsReconnectAttempt := n }
        .transportClose = { connState := .reconnecting, wsReconnectAttempt := n + 1 })
    ∧ (∀ n : ℕ, connStep { connState := .slow, wsReconnectAttempt := n }
        .transportClose = { connState := .reconnecting, wsReconnectAttempt := n + 1 })
    ∧ (∀ n : ℕ, connStep { connState := .reconnecting, wsReconnectAttempt := n }
        .retrySuccess = { connState := .connected, wsReconnectAttempt := 0 })
    ∧ (∀ n : ℕ, WS_MAX_RETRY_BANNER ≤ n + 1 →
        connStep { connState := .reconnecting, wsReconnectAttempt := n }
          .retryFail = { connState := .disconnected, wsReconnectAttempt := n + 1 })
    ∧ (∀ n : ℕ, connStep { connState := .disconnected, wsReconnectAttempt := n }
        .manualRetry = { connState := .reconnecting, wsReconnectAttempt := n }) := by
  refine ⟨rfl, ?_, ?_, ?_, ?_, ?_, ?_, ?_, ?_, ?_⟩
  · intro s; cases s <;> simp
  · rintro ⟨s, n⟩ e h
    cases s <;> cases e <;>
      simp_all [connStep, allowedTransition] <;>
      split_ifs <;> simp_all [allowedTransition]
  · intro n; rfl
  · intro n; rfl
  · intro n; rfl
  · intro n; rfl
  · intro n; rfl
  · intro n h; simp [connStep, h]
  · intro n; rfl

/-- C3 witness: the transport-close step out of the initial state is an
allowed transition. -/
theorem connState_machine_witness :
    allowedTransition initManager.connState
      (connStep initManager .transportClose).connState :=
  connState_machine.2.2.1 initManager .transportClose (by decide)

/-- One connection step preserves the counter/state consistency
invariant. -/
theorem connStep_inv (m : ConnectionManager) (e : ConnEvent) (h : ConnInv m) :
    ConnInv (connStep m e) := by
  obtain ⟨s, n⟩ := m
  cases s <;> cases e <;>
    simp_all [connStep, ConnInv] <;>
    split_ifs <;> simp_all

/-- Any event list preserves the counter/state consistency invariant. -/
theorem connInv_foldl (es : List ConnEvent) :
    ∀ m : ConnectionManager, ConnInv m → ConnInv (es.foldl connStep m) := by
  induction es with
  | nil => intro m h; exact h
  | cons e rest ih => intro m h; exact ih _ (connStep_inv m e h)

/-- C4: in every reachable state the attempt counter is nonzero only
while the state is `reconnecting` or `disconnected`; every step into
`connected` resets the counter to 0 in the same operation; and every
step out of `connected`/`slow` into `reconnecting` increments the
counter from its prior value. -/
theorem counter_state_consistent :
    (∀ es : List ConnEvent, ConnInv (runConn es))
    ∧ (∀ (m : ConnectionManager) (e : ConnEvent),
        (connStep m e).connState = .connected → ¬m.connState = .connected →
        (connStep m e).wsReconnectAttempt = 0)
    ∧ (∀ (m : ConnectionManager) (e : ConnEvent),
        (m.connState = .connected ∨ m.connState = .slow) →
        (connStep m e).connState = .reconnecting →
        (connStep m e).wsReconnectAttempt = m.wsReconnectAttempt + 1) := by
  refine ⟨?_, ?_, ?_⟩
  · intro es
    exact connInv_foldl es initManager (by intro h; cases h rfl)
  · rintro ⟨s, n⟩ e h1 h2
    cases s <;> cases e <;> simp_all [connStep] <;> split_ifs at h1 <;> simp_all
  · rintro ⟨s, n⟩ e h1 h2
    cases s <;> cases e <;> simp_all [connStep]

/-- C4 witness: the retry-success step out of a reconnecting state with
counter 5 resets the counter to 0. -/
theorem counter_state_consistent_witness :
    (connStep { connState := .reconnecting, wsReconnectAttempt := 5 }
      .retrySuccess).wsReconnectAttempt = 0 :=
  counter_state_consistent.2.1
    { connState := .reconnecting, wsReconnectAttempt := 5 } .retrySuccess
    (by decide) (by decide)

/-- One stream-controller call preserves the invariant that an inactive
controller holds no window identifier. -/
theorem streamStep_inv (s : StreamController) (op : StreamOp)
    (h : s.streamActive = false → s.streamWinId = none) :
    (streamStep s op).streamActive = false → (streamStep s op).streamWinId = none := by
  cases op with
  | opOpen winId title hint => intro hc; simp [streamStep, openStream] at hc
  | opClose => intro _; rfl
  | opResume =>
    intro hc
    have hres : (resumeStream s).1 = s := by
      unfold resumeStream; split <;> rfl
    simp only [streamStep] at hc ⊢
    rw [hres] at hc ⊢
    exact h hc

/-- Any call list preserves the inactive-controller invariant. -/
theorem streamInv_foldl (ops : List StreamOp) :
    ∀ s : StreamController,
      (s.streamActive = false → s.streamWinId = none) →
      (ops.foldl streamStep s).streamActive = false →
      (ops.foldl streamStep s).streamWinId = none := by
  induction ops with
  | nil => intro s h; exact h
  | cons op rest ih => intro s h; exact ih _ (streamStep_inv s op h)

/-- `closeStream` fixes any state that is already inactive with no
remembered window. -/
theorem closeStream_fixed (s : StreamController)
    (h1 : s.streamActive = false) (h2 : s.streamWinId = none) :
    closeStream s = s := by
  obtain ⟨a, w, t⟩ := s
  simp only at h1 h2
  simp [closeStream, h1, h2]

/-- C9: calling `closeStream()` when no session is active (in any state
the controller can reach through its operations) leaves the state
entirely unchanged — it is a total Lean function, so it cannot raise —
and calling it on any active state marks the state inactive and clears
the active window identifier. -/
theorem closeStream_idempotent :
    (∀ ops : List StreamOp, (runStream ops).streamActive = false →
        closeStream (runStream ops) = runStream ops)
    ∧ (∀ s : StreamController,
        (closeStream s).streamActive = false ∧ (closeStream s).streamWinId = none) := by
  constructor
  · intro ops h
    exact closeStream_fixed _ h
      (streamInv_foldl ops initStream (fun _ => rfl) h)
  · intro s
    exact ⟨rfl, rfl⟩

/-- C9 witness: after opening and closing a stream the controller is
inactive and a second close leaves it unchanged. -/
theorem closeStream_idempotent_witness :
    closeStream (runStream [.opOpen "test-win" "Test Window" (some "cmd.exe"), .opClose]) =
      runStream [.opOpen "test-win" "Test Window" (some "cmd.exe"), .opClose] :=
  closeStream_idempotent.1 [.opOpen "test-win" "Test Window" (some "cmd.exe"), .opClose]
    (by decide)

/-- C5: when the socket re-opens out of a reconnection (previous state
`reconnecting`, attempt counter positive) while a stream session is
active, exactly one stream-start request is re-issued, addressed to the
remembered window, and the controller state — in particular the
remembered identifier and title — is unchanged; when no session is
active the resume path is a no-op (controller unchanged and no message
sent). -/
theorem resume_on_reconnect :
    (∀ (m : ConnectionManager) (s : StreamController),
        m.connState = .reconnecting → 0 < m.wsReconnectAttempt →
        s.streamActive = true →
        handleSocketOpen m s =
          ({ connState := .connected, wsReconnectAttempt := 0 }, s,
            [WireMsg.streamStart s.streamWinId]))
    ∧ (∀ (m : ConnectionManager) (s : StreamController),
        s.streamActive = false →
        (handleSocketOpen m s).2.1 = s ∧ (handleSocketOpen m s).2.2 = [])
    ∧ (∀ s : StreamController, s.streamActive = false → resumeStream s = (s, [])) := by
  refine ⟨?_, ?_, ?_⟩
  · intro m s _ h2 h3
    simp [handleSocketOpen, resumeStream, h2, h3]
  · intro m s h
    unfold handleSocketOpen resumeStream
    simp [h]
  · intro s h
    simp [resumeStream, h]

/-- C5 witness: a reconnection with one prior failed attempt and an
active session for window "test-win" re-issues exactly one stream-start
for that window. -/
theorem resume_on_reconnect_witness :
    handleSocketOpen { connState := .reconnecting, wsReconnectAttempt := 1 }
      { streamActive := true, streamWinId := some "test-win",
        streamTitle := some "Test Window" } =
    ({ connState := .connected, wsReconnectAttempt := 0 },
      { streamActive := true, streamWinId := some "test-win",
        streamTitle := some "Test Window" },
      [WireMsg.streamStart (some "test-win")]) :=
  resume_on_reconnect.1
    { connState := .reconnecting, wsReconnectAttempt := 1 }
    { streamActive := true, streamWinId := some "test-win",
      streamTitle := some "Test Window" }
    rfl (by decide) rfl

/-- Characterization of the telemetry accumulators after any recording
trace, starting from any accumulator state. -/
theorem perf_foldl_char (ops : List PerfOp) :
    ∀ t : PerfTelemetry,
      (ops.foldl perfStep t).totalFrames = t.totalFrames + countFrames ops
      ∧ (ops.foldl perfStep t).totalBytes = t.totalBytes + sumBytes ops
      ∧ (ops.foldl perfStep t).dropCount = t.dropCount + countDrops ops
      ∧ (ops.foldl perfStep t).latencySamples = t.latencySamples ++ latencyList ops := by
  induction ops with
  | nil => intro t; simp [countFrames, sumBytes, countDrops, latencyList]
  | cons op rest ih =>
    intro t
    obtain ⟨h1, h2, h3, h4⟩ := ih (perfStep t op)
    cases op <;>
      simp [perfStep, recordFrame, recordLatency, recordDrop,
        countFrames, sumBytes, countDrops, latencyList] at h1 h2 h3 h4 ⊢ <;>
      refine ⟨by omega, by omega, by omega, ?_⟩ <;>
      simp [h4]

/-- C7: for every sequence of recording operations after `reset()`, the
snapshot reports `totalFrames` = number of `recordFrame` calls, `drops`
= number of `recordDrop` calls, `avgFrameSize` = total recorded bytes
divided by the frame count (zero when no frames were recorded — the
function is total, so nothing can raise), and `latency` = arithmetic
mean of the recorded samples; in particular the test's scenario of 20
frames of 5000 bytes, latencies 150 and 250 and one drop yields
`totalFrames = 20`, `drops = 1`, `avgFrameSize = 5000`,
`latency = 200`. -/
theorem getSnapshot_correct :
    (∀ ops : List PerfOp,
        (getSnapshot (runPerf ops)).totalFrames = countFrames ops
        ∧ (getSnapshot (runPerf ops)).drops = countDrops ops
        ∧ (getSnapshot (runPerf ops)).avgFrameSize =
            (if countFrames ops = 0 then 0 else (sumBytes ops : ℚ) / countFrames ops)
        ∧ (getSnapshot (runPerf ops)).latency =
            (if (latencyList ops).length = 0 then 0
             else (latencyList ops).sum / (latencyList ops).length))
    ∧ getSnapshot (runPerf (List.replicate 20 (.frame 5000) ++
        [.latencySample 150, .latencySample 250, PerfOp.drop])) =
      { totalFrames := 20, drops := 1, avgFrameSize := 5000, latency := 200,
        quality := .fair } := by
  constructor
  · intro ops
    obtain ⟨h1, h2, h3, h4⟩ :=
      perf_foldl_char ops
        { totalFrames := 0, totalBytes := 0, dropCount := 0, latencySamples := [] }
    refine ⟨?_, ?_, ?_, ?_⟩
    · simp [getSnapshot, runPerf, PerfTelemetry.reset, initTelemetry, h1]
    · simp [getSnapshot, runPerf, PerfTelemetry.reset, initTelemetry, h3]
    · simp [getSnapshot, runPerf, PerfTelemetry.reset, initTelemetry, h1, h2]
    · simp [getSnapshot, avgLatency, runPerf, PerfTelemetry.reset, initTelemetry, h4]
  · have hT : runPerf (List.replicate 20 (.frame 5000) ++
        [.latencySample 150, .latencySample 250, PerfOp.drop]) =
        { totalFrames := 20, totalBytes := 100000, dropCount := 1,
          latencySamples := [150, 250] } := by decide
    rw [getSnapshot, hT]
    norm_num [avgLatency, qualityOf]

/-- The quality label is `fair` or better exactly when latency and drops
are within the fair thresholds. -/
theorem one_le_rank (lat : ℚ) (drops : ℕ) :
    1 ≤ qualityRank (qualityOf lat drops) ↔ (lat ≤ 300 ∧ drops ≤ 10) := by
  unfold qualityOf
  split_ifs with h1 h2 <;> simp [qualityRank]
  · exact ⟨h1.1.trans (by norm_num), h1.2.trans (by norm_num)⟩
  · exact h2
  · intro hl
    rcases Nat.lt_or_ge 10 drops with h | h
    · exact h
    · exact absurd ⟨hl, h⟩ h2

/-- The quality label is `good` exactly when latency and drops are
within the good thresholds. -/
theorem two_le_rank (lat : ℚ) (drops : ℕ) :
    2 ≤ qualityRank (qualityOf lat drops) ↔ (lat ≤ 100 ∧ drops ≤ 2) := by
  unfold qualityOf
  split_ifs with h1 h2 <;> simp [qualityRank]
  · exact h1
  · intro hl
    rcases Nat.lt_or_ge 2 drops with h | h
    · exact h
    · exact absurd ⟨hl, h⟩ h1
  · intro hl
    rcases Nat.lt_or_ge 2 drops with h | h
    · exact h
    · exact absurd ⟨hl.trans (by norm_num), h.trans (by norm_num)⟩ h2

/-- Quality ranks never exceed 2. -/
theorem rank_le_two (lat : ℚ) (drops : ℕ) :
    qualityRank (qualityOf lat drops) ≤ 2 := by
  unfold qualityOf
  split_ifs <;> simp [qualityRank]

/-- C8: every snapshot's quality is one of `good`, `fair`, `poor`, and
the classification is monotone: between two telemetry states that agree
except that the second has higher (or equal) average latency and at
least as many drops, the second's label is never strictly better under
the ordering good > fair > poor. -/
theorem quality_monotone :
    (∀ t : PerfTelemetry,
        (getSnapshot t).quality = .good ∨ (getSnapshot t).quality = .fair ∨
          (getSnapshot t).quality = .poor)
    ∧ (∀ (lat₁ lat₂ : ℚ) (d₁ d₂ : ℕ), lat₁ ≤ lat₂ → d₁ ≤ d₂ →
        qualityRank (qualityOf lat₂ d₂) ≤ qualityRank (qualityOf lat₁ d₁))
    ∧ (∀ t₁ t₂ : PerfTelemetry,
        avgLatency t₁ ≤ avgLatency t₂ → t₁.dropCount ≤ t₂.dropCount →
        qualityRank (getSnapshot t₂).quality ≤ qualityRank (getSnapshot t₁).quality) := by
  have mono : ∀ (lat₁ lat₂ : ℚ) (d₁ d₂ : ℕ), lat₁ ≤ lat₂ → d₁ ≤ d₂ →
      qualityRank (qualityOf lat₂ d₂) ≤ qualityRank (qualityOf lat₁ d₁) := by
    intro l1 l2 d1 d2 hl hd
    have k2 : 2 ≤ qualityRank (qualityOf l2 d2) → 2 ≤ qualityRank (qualityOf l1 d1) := by
      rw [two_le_rank, two_le_rank]
      rintro ⟨a, b⟩
      exact ⟨hl.trans a, hd.trans b⟩
    have k1 : 1 ≤ qualityRank (qualityOf l2 d2) → 1 ≤ qualityRank (qualityOf l1 d1) := by
      rw [one_le_rank, one_le_rank]
      rintro ⟨a, b⟩
      exact ⟨hl.trans a, hd.trans b⟩
    have b1 := rank_le_two l1 d1
    have b2 := rank_le_two l2 d2
    omega
  refine ⟨?_, mono, ?_⟩
  · intro t
    cases h : (getSnapshot t).quality
    · exact Or.inl rfl
    · exact Or.inr (Or.inl rfl)
    · exact Or.inr (Or.inr rfl)
  · intro t1 t2 hl hd
    exact mono (avgLatency t1) (avgLatency t2) t1.dropCount t2.dropCount hl hd

/-- C8 witness: a state with latency 200 and 3 drops is classified no
better than one with latency 100 and 1 drop. -/
theorem quality_monotone_witness :
    qualityRank (qualityOf 200 3) ≤ qualityRank (qualityOf 100 1) :=
  quality_monotone.2.1 100 200 1 3 (by norm_num) (by norm_num)

/-- The pre-jitter delay is never negative. -/
theorem base_nonneg (a : ℕ) : 0 ≤ baseReconnectDelay a := by
  apply le_min
  · unfold baseDelay growthFactor
    positivity
  · unfold capDelay
    norm_num

/-- The pre-jitter delay never exceeds the 60000 ms cap. -/
theorem base_le_cap (a : ℕ) : baseReconnectDelay a ≤ 60000 := by
  unfold baseReconnectDelay capDelay
  exact min_le_right _ _

/-- The pre-jitter delay is monotone in the attempt count. -/
theorem base_mono (a b : ℕ) (hab : a ≤ b) :
    baseReconnectDelay a ≤ baseReconnectDelay b := by
  unfold baseReconnectDelay
  apply min_le_min _ le_rfl
  unfold baseDelay growthFactor
  have := pow_le_pow_right (by norm_num : (1:ℚ) ≤ 3 / 2) hab
  nlinarith [this]

/-- C1: for every attempt count the delay equals
`min(baseDelay · growthFactor^attempt, capDelay)` with a relative jitter
of at most ±20 % applied (the deviation from the pre-jitter value is at
most `jitterFraction` of it), is always ≥ 0 and ≤ 72000; the pre-jitter
delay is monotone in the attempt count, and for attempts `a < b` both
below the cap-reaching point the jittered delay at `a` never exceeds the
jittered delay at `b`, whatever jitters within tolerance are drawn. -/
theorem reconnectDelay_spec :
    (∀ a : ℕ, baseReconnectDelay a = min (baseDelay * growthFactor ^ a) capDelay)
    ∧ (∀ (a : ℕ) (j : ℚ), -jitterFraction ≤ j → j ≤ jitterFraction →
        0 ≤ getReconnectDelay a j
        ∧ getReconnectDelay a j ≤ 72000
        ∧ getReconnectDelay a j - baseReconnectDelay a ≤
            jitterFraction * baseReconnectDelay a
        ∧ -(jitterFraction * baseReconnectDelay a) ≤
            getReconnectDelay a j - baseReconnectDelay a)
    ∧ (∀ a b : ℕ, a ≤ b → baseReconnectDelay a ≤ baseReconnectDelay b)
    ∧ (∀ (a b : ℕ) (j₁ j₂ : ℚ), a < b →
        baseDelay * growthFactor ^ b ≤ capDelay →
        -jitterFraction ≤ j₁ → j₁ ≤ jitterFraction →
        -jitterFraction ≤ j₂ → j₂ ≤ jitterFraction →
        getReconnectDelay a j₁ ≤ getReconnectDelay b j₂) := by
  refine ⟨fun _ => rfl, ?_, base_mono, ?_⟩
  · intro a j h1 h2
    have hb0 := base_nonneg a
    have hbc := base_le_cap a
    rw [jitterFraction] at h1 h2 ⊢
    unfold getReconnectDelay
    refine ⟨?_, ?_, ?_, ?_⟩
    · nlinarith
    · nlinarith
    · nlinarith
    · nlinarith
  · intro a b j₁ j₂ hab hcap h1 h2 h3 h4
    rw [jitterFraction] at h1 h2 h3 h4
    rw [baseDelay, growthFactor, capDelay] at hcap
    have hstep : (3/2 : ℚ) ^ (a + 1) ≤ (3/2) ^ b :=
      pow_le_pow_right (by norm_num) (by omega)
    have hpowpos : (0:ℚ) < (3/2) ^ a := by positivity
    have hAB : (3/2 : ℚ) * (2000 * (3/2) ^ a) ≤ 2000 * (3/2) ^ b := by
      rw [pow_succ] at hstep
      nlinarith [hstep]
    have hA_le_B : (2000 : ℚ) * (3/2) ^ a ≤ 2000 * (3/2) ^ b := by nlinarith
    have hAcap : (2000 : ℚ) * (3/2) ^ a ≤ 60000 := hA_le_B.trans hcap
    have hbaseA : baseReconnectDelay a = 2000 * (3/2) ^ a := by
      unfold baseReconnectDelay baseDelay growthFactor capDelay
      exact min_eq_left hAcap
    have hbaseB : baseReconnectDelay b = 2000 * (3/2) ^ b := by
      unfold baseReconnectDelay baseDelay growthFactor capDelay
      exact min_eq_left hcap
    unfold getReconnectDelay
    rw [hbaseA, hbaseB]
    nlinarith [hAB, hpowpos, h2, h3]

/-- C1 witness: at attempt 3 with a zero jitter draw the delay is
within its bounds, and attempt 0 with the worst positive jitter stays
below attempt 1 with the worst negative jitter. -/
theorem reconnectDelay_spec_witness :
    (0 ≤ getReconnectDelay 3 0 ∧ getReconnectDelay 3 0 ≤ 72000)
    ∧ getReconnectDelay 0 (1/5) ≤ getReconnectDelay 1 (-(1/5)) := by
  constructor
  · have h := reconnectDelay_spec.2.1 3 0 (by norm_num [jitterFraction])
      (by norm_num [jitterFraction])
    exact ⟨h.1, h.2.1⟩
  · exact reconnectDelay_spec.2.2.2 0 1 (1/5) (-(1/5)) (by norm_num)
      (by norm_num [baseDelay, growthFactor, capDelay])
      (by norm_num [jitterFraction]) (by norm_num [jitterFraction])
      (by norm_num [jitterFraction]) (by norm_num [jitterFraction])
